import Mathlib

/-
Verification of the retry/streaming core of a chat application
(src/app.py).  The app is a thin client around a hosted text-generation
API: a retry wrapper (generate_response_with_retry), request building
(history remapping, first-turn system-instruction prefixing), per-turn
conversation bookkeeping in main, and API-key acquisition
(setup_google_api).  External effects (the remote API raising or
succeeding per attempt, the fragment stream) are modelled as explicit
oracles passed in as parameters; time.sleep calls are recorded as a
trace of delays.
-/

namespace App

/-- Boolean test that `pat` occurs as a contiguous sublist of a list of
characters; used to embed Python `"x" in s` substring tests. -/
def hasSubstringChars (pat : List Char) : List Char → Bool
  | [] => pat.isEmpty
  | c :: rest => List.isPrefixOf pat (c :: rest) || hasSubstringChars pat rest

/-- Python `pat in s` on strings: substring containment. -/
def containsSub (s pat : String) : Bool :=
  hasSubstringChars pat.data s.data

/-- Python `s.lower()`: lowercase every character.  (`Char.toLower`
lowercases ASCII letters, which is all the overload signature needs.) -/
def lowerStr (s : String) : String :=
  ⟨s.data.map Char.toLower⟩

/-- src/app.py line 126: `"503" in error_message and "overloaded" in
error_message.lower()` — the overload signature that triggers a retry. -/
def isOverloadError (error_message : String) : Bool :=
  containsSub error_message "503" && containsSub (lowerStr error_message) "overloaded"

/-- One turn in the API request format: `{role, parts:[{text}]}`
(src/app.py line 190), flattened to role and text. -/
structure ApiTurn where
  role : String
  text : String
deriving DecidableEq, Repr

/-- The fixed system instruction string (src/app.py lines 74-105). -/
def system_instruction : String := "You are a healthcare assistant. Be CONCISE and DIRECT.

INTERACTION FLOW:
1. Ask for name
2. Ask for age
3. Ask for gender
4. Ask for location (city/area)
5. Ask about symptoms/issue
6. Provide brief diagnosis and treatment

RESPONSE FORMAT:
- Keep responses under 3 sentences
- Be direct and professional
- No lengthy explanations
- Focus on essential information only

DIAGNOSIS FORMAT:
- Possible condition: [brief diagnosis]
- First aid: [2-3 key steps]
- Medication: [common treatments]
- See a doctor immediately for proper diagnosis
- Nearby hospitals: [provide 1-2 options based on location]

LOCATION-BASED HOSPITALS:
- Lagos: Lagos University Teaching Hospital, General Hospital Lagos
- Abuja: University of Abuja Teaching Hospital, National Hospital Abuja
- Covenant University area: Covenant University Hospital https://maps.app.goo.gl/njSWK8Gj8JPmjv5SA
- Port Harcourt: University of Port Harcourt Teaching Hospital
- Kano: Aminu Kano Teaching Hospital
- Ibadan: University College Hospital Ibadan

Ask for location to provide specific nearby hospitals."

/-- The request submitted on one attempt (src/app.py lines 107-117):
either `start_chat(history=...)` followed by `send_message(prompt)`, or a
fresh chat sent the system-instruction-prefixed prompt. -/
inductive SentRequest where
  | withHistory (history : List ApiTurn) (message : String)
  | fresh (message : String)
deriving DecidableEq, Repr

/-- src/app.py lines 107-117: `if conversation_history:` is Python
truthiness, so both `None` and an empty list take the else branch, which
prefixes the system instruction to the prompt text. -/
def buildRequest (prompt : String) (conversation_history : Option (List ApiTurn)) :
    SentRequest :=
  match conversation_history with
  | some h =>
      if h.isEmpty then
        SentRequest.fresh (system_instruction ++ "\n\nUser: " ++ prompt)
      else
        SentRequest.withHistory h prompt
  | none => SentRequest.fresh (system_instruction ++ "\n\nUser: " ++ prompt)

/-- Outcome of `generate_response_with_retry`: the success constructor
carries the request that was submitted and the index of the successful
attempt; the two failure constructors correspond to the two
`return None, None` sites (lines 135 and 139).  `outOfFuel` and
`loopFellThrough` are artifacts of the embedding (bounded recursion and
the while-condition being false), both provably unreachable from the
entry point. -/
inductive RetryResult where
  | success (req : SentRequest) (attempt : Nat)
  | overloadExhausted
  | nonOverloadError (msg : String)
  | outOfFuel
  | loopFellThrough
deriving DecidableEq, Repr

/-- Observable trace of one run of the retry loop: the final result, the
number of times the try-block (the API call) was entered, and the list
of `time.sleep` delays in order. -/
structure RetryTrace where
  result : RetryResult
  attempts : Nat
  sleeps : List Nat
deriving DecidableEq, Repr

/-- The while loop of src/app.py lines 38-139.  `env attempt` is `none`
when the API call of that attempt succeeds and `some e` when it raises
an exception whose `str` is `e`.  `fuel` bounds the recursion; the entry
point passes `max_retries + 1`, which is provably enough, so the
`outOfFuel` branch is dead.  Each iteration: try the call (returning the
built request on success); on an exception matching the overload
signature increment `retries`, and if `retries <= max_retries` still
holds sleep `retry_delay` and double it for the next attempt, otherwise
return the terminal failure; on any other exception return immediately. -/
def retryLoop (env : Nat → Option String) (prompt : String)
    (conversation_history : Option (List ApiTurn)) (max_retries : Nat) :
    Nat → Nat → Nat → Nat → RetryTrace
  | 0, _, _, _ => ⟨RetryResult.outOfFuel, 0, []⟩
  | fuel + 1, retries, retry_delay, attempt =>
    if retries ≤ max_retries then
      match env attempt with
      | none =>
          ⟨RetryResult.success (buildRequest prompt conversation_history) attempt, 1, []⟩
      | some e =>
          if isOverloadError e then
            if retries + 1 ≤ max_retries then
              let t := retryLoop env prompt conversation_history max_retries
                fuel (retries + 1) (retry_delay * 2) (attempt + 1)
              ⟨t.result, t.attempts + 1, retry_delay :: t.sleeps⟩
            else ⟨RetryResult.overloadExhausted, 1, []⟩
          else ⟨RetryResult.nonOverloadError e, 1, []⟩
    else ⟨RetryResult.loopFellThrough, 0, []⟩

/-- src/app.py lines 34-139: `generate_response_with_retry(prompt,
conversation_history=None, max_retries=3, retry_delay=2)`, with the
per-attempt exception oracle `env` made explicit.  `retries` starts at
0; the loop runs while `retries <= max_retries`, so `max_retries + 1`
fuel suffices. -/
def generate_response_with_retry (env : Nat → Option String) (prompt : String)
    (conversation_history : Option (List ApiTurn)) (max_retries retry_delay : Nat) :
    RetryTrace :=
  retryLoop env prompt conversation_history max_retries
    (max_retries + 1) 0 retry_delay 0

/-- src/app.py lines 141-143: the compatibility wrapper simply forwards
to `generate_response_with_retry`, so the defaults `max_retries=3`,
`retry_delay=2` apply. -/
def generate_response (env : Nat → Option String) (prompt : String)
    (conversation_history : Option (List ApiTurn)) : RetryTrace :=
  generate_response_with_retry env prompt conversation_history 3 2

/-- Whether an attempt outcome is an exception matching the overload
signature. -/
def overloadFails : Option String → Bool
  | none => false
  | some e => isOverloadError e

/-- The exponential backoff delay sequence: `n` sleeps starting at `d`,
doubling each time (`retry_delay *= 2`, line 132). -/
def backoffs (d : Nat) : Nat → List Nat
  | 0 => []
  | n + 1 => d :: backoffs (d * 2) n

/-- One conversation message (src/app.py: entries of
`st.session_state.messages`, e.g. line 180): a role tag and content. -/
structure Message where
  role : String
  content : String
deriving DecidableEq, Repr

/-- The session state touched by one turn of `main`: the message log and
the opaque chat-session handle (modelled as a numeric id). -/
structure AppState where
  messages : List Message
  chat_session : Option Nat
deriving DecidableEq, Repr

/-- src/app.py line 189: `role = "model" if msg["role"] == "assistant"
else "user"`, paired with the message content (line 190). -/
def remapMsg (m : Message) : ApiTurn :=
  ⟨if m.role == "assistant" then "model" else "user", m.content⟩

/-- src/app.py lines 187-190: the history sent to the provider is built
from `st.session_state.messages[:-1]` (all but the just-appended user
message), each remapped by `remapMsg`. -/
def buildHistory (messages : List Message) : List ApiTurn :=
  messages.dropLast.map remapMsg

/-- Which call `main` makes for a turn (src/app.py lines 198-203):
`generate_response(prompt, history)` when a chat session exists,
`generate_response(prompt)` otherwise. -/
inductive GenCall where
  | withHist (prompt : String) (history : List ApiTurn)
  | fresh (prompt : String)
deriving DecidableEq, Repr

/-- The call made by `main` for one submitted prompt, after the user
message has been appended (so `buildHistory` sees the appended list). -/
def turnCall (st : AppState) (prompt : String) : GenCall :=
  let messages1 := st.messages ++ [⟨"user", prompt⟩]
  let history := buildHistory messages1
  match st.chat_session with
  | some _ => GenCall.withHist prompt history
  | none => GenCall.fresh prompt

/-- The request `generate_response` builds for the call `main` makes
(composing `turnCall` with `buildRequest`). -/
def turnRequest (st : AppState) (prompt : String) : SentRequest :=
  match turnCall st prompt with
  | GenCall.withHist p h => buildRequest p (some h)
  | GenCall.fresh p => buildRequest p none

/-- Modelled provider call shape: `start_chat(history=h)` followed by
`send_message(m)` submits the turn sequence `h` then a user turn `m`;
a fresh chat submits just the user turn.  This is the turn list the
provider receives for a request. -/
def requestTurns : SentRequest → List ApiTurn
  | SentRequest.withHistory h m => h ++ [⟨"user", m⟩]
  | SentRequest.fresh m => [⟨"user", m⟩]

/-- Outcome of the generation call as observed by `main` (src/app.py
lines 198-223): either a total failure (`response` is `None`), or a
stream.  A stream outcome carries the fragments successfully yielded
before the iteration ended (each `none` when the chunk lacks a `text`
attribute, `some t` for text `t`), an optional exception message raised
mid-iteration after those fragments, and the chat-session handle the
call returned. -/
inductive ApiOutcome where
  | failure
  | stream (chunks : List (Option String)) (interruption : Option String) (session : Nat)
deriving DecidableEq, Repr

/-- src/app.py lines 210-214: fragments are concatenated; a chunk is
skipped unless it has a `text` attribute and the text is truthy
(non-empty). -/
def consumeStream (chunks : List (Option String)) : String :=
  chunks.foldl
    (fun acc c =>
      match c with
      | some t => if t == "" then acc else acc ++ t
      | none => acc) ""

/-- The final `full_response` recorded for the turn (src/app.py lines
208-223): the concatenated stream on success; on a mid-stream exception
the error marker text (the partial concatenation is overwritten, line
220); on total failure the fixed apology. -/
def finalResponse : ApiOutcome → String
  | ApiOutcome.failure =>
      "I\x27m sorry, I couldn\x27t generate a response. Please try again."
  | ApiOutcome.stream chunks none _ => consumeStream chunks
  | ApiOutcome.stream _ (some e) _ => "Error while streaming response: " ++ e

/-- One full turn of `main` (src/app.py lines 178-226): append the user
message, issue the generation call (storing the returned chat session if
none was active and the call returned one), then append the assistant
message computed by `finalResponse`. -/
def processTurn (st : AppState) (prompt : String) (outcome : ApiOutcome) : AppState :=
  let messages1 := st.messages ++ [⟨"user", prompt⟩]
  let chat_session1 :=
    match st.chat_session with
    | some s => some s
    | none =>
        match outcome with
        | ApiOutcome.failure => none
        | ApiOutcome.stream _ _ sess => some sess
  ⟨messages1 ++ [⟨"assistant", finalResponse outcome⟩], chat_session1⟩

/-- The sources of an API key visible to `setup_google_api` (src/app.py
lines 8-31): the environment variable, the session-state cache, and the
interactive sidebar input; plus whether `genai.configure` would raise. -/
structure KeyEnv where
  envVar : Option String
  sessionCached : Option String
  userInput : Option String
  configureOk : Bool
deriving DecidableEq, Repr

/-- Python truthiness of an optional string: absent and empty are falsy. -/
def truthyStr : Option String → Bool
  | none => false
  | some s => !(s == "")

/-- src/app.py lines 10-19: the key actually used — the environment
variable if truthy, else the cached session value if present, else the
interactive input. -/
def acquiredKey (env : KeyEnv) : Option String :=
  if truthyStr env.envVar then env.envVar
  else
    match env.sessionCached with
    | some c => some c
    | none => env.userInput

/-- Result of `setup_google_api`: whether it returned True, and whether
the missing-key warning (line 22) was shown. -/
structure SetupResult where
  ready : Bool
  warned : Bool
deriving DecidableEq, Repr

/-- src/app.py lines 8-31: if no truthy key is available, warn and
return False; otherwise attempt `genai.configure` and return whether it
succeeded. -/
def setup_google_api (env : KeyEnv) : SetupResult :=
  if truthyStr (acquiredKey env) then ⟨env.configureOk, false⟩
  else ⟨false, true⟩

/-- The turns of a session after the API gate: each element pairs a
submitted prompt with its generation outcome; returns the final state
and the generation calls issued, in order. -/
def runTurns (st : AppState) : List (String × ApiOutcome) → AppState × List GenCall
  | [] => (st, [])
  | (p, o) :: rest =>
      let c := turnCall st p
      let st1 := processTurn st p o
      let r := runTurns st1 rest
      (r.1, c :: r.2)

/-- src/app.py lines 161-163: `if not setup_google_api(): st.stop()` —
when setup fails the script stops before any chat handling, so no
generation call is ever issued. -/
def mainCalls (env : KeyEnv) (st : AppState) (turns : List (String × ApiOutcome)) :
    List GenCall :=
  if (setup_google_api env).ready then (runTurns st turns).2 else []


/-- Unfolding lemma: an attempt whose API call succeeds returns the built
request immediately. -/
theorem retryLoop_step_success (env : Nat → Option String) (prompt : String)
    (hist : Option (List ApiTurn)) (max_retries fuel retries retry_delay attempt : Nat)
    (hr : retries ≤ max_retries) (henv : env attempt = none) :
    retryLoop env prompt hist max_retries (fuel + 1) retries retry_delay attempt =
      ⟨RetryResult.success (buildRequest prompt hist) attempt, 1, []⟩ := by
  simp [retryLoop, hr, henv]

/-- Unfolding lemma: an overload failure with retry budget remaining sleeps
the current delay, doubles it, and continues with the next attempt. -/
theorem retryLoop_step_retry (env : Nat → Option String) (prompt : String)
    (hist : Option (List ApiTurn)) (max_retries fuel retries retry_delay attempt : Nat)
    (e : String) (hr : retries ≤ max_retries) (henv : env attempt = some e)
    (he : isOverloadError e = true) (hlt : retries + 1 ≤ max_retries) :
    retryLoop env prompt hist max_retries (fuel + 1) retries retry_delay attempt =
      ⟨(retryLoop env prompt hist max_retries fuel (retries + 1) (retry_delay * 2) (attempt + 1)).result,
       (retryLoop env prompt hist max_retries fuel (retries + 1) (retry_delay * 2) (attempt + 1)).attempts + 1,
       retry_delay ::
         (retryLoop env prompt hist max_retries fuel (retries + 1) (retry_delay * 2) (attempt + 1)).sleeps⟩ := by
  simp [retryLoop, hr, henv, he, hlt]

/-- Unfolding lemma: an overload failure with the budget exhausted returns
the terminal overload failure. -/
theorem retryLoop_step_exhaust (env : Nat → Option String) (prompt : String)
    (hist : Option (List ApiTurn)) (max_retries fuel retries retry_delay attempt : Nat)
    (e : String) (hr : retries ≤ max_retries) (henv : env attempt = some e)
    (he : isOverloadError e = true) (hge : ¬ retries + 1 ≤ max_retries) :
    retryLoop env prompt hist max_retries (fuel + 1) retries retry_delay attempt =
      ⟨RetryResult.overloadExhausted, 1, []⟩ := by
  simp [retryLoop, hr, henv, he, hge]

/-- Unfolding lemma: a failure not matching the overload signature returns
immediately, carrying the error text. -/
theorem retryLoop_step_other (env : Nat → Option String) (prompt : String)
    (hist : Option (List ApiTurn)) (max_retries fuel retries retry_delay attempt : Nat)
    (e : String) (hr : retries ≤ max_retries) (henv : env attempt = some e)
    (he : isOverloadError e = false) :
    retryLoop env prompt hist max_retries (fuel + 1) retries retry_delay attempt =
      ⟨RetryResult.nonOverloadError e, 1, []⟩ := by
  simp [retryLoop, hr, henv, he]

/-- Closed form of a run in which every attempt fails with the overload
signature: the loop tries until the retry counter exceeds the cap, making
one attempt per remaining budget unit and sleeping the doubling backoff
sequence. -/
theorem retryLoop_all_overload (env : Nat → Option String) (prompt : String)
    (hist : Option (List ApiTurn)) (max_retries : Nat) :
    ∀ fuel retries retry_delay attempt,
      retries ≤ max_retries →
      fuel = max_retries + 1 - retries →
      (∀ i, retries + i ≤ max_retries → overloadFails (env (attempt + i)) = true) →
      retryLoop env prompt hist max_retries fuel retries retry_delay attempt =
        ⟨RetryResult.overloadExhausted, max_retries + 1 - retries,
          backoffs retry_delay (max_retries - retries)⟩ := by
  intro fuel
  induction fuel with
  | zero => intro r d a hr hf _; omega
  | succ f ih =>
    intro r d a hr hf hov
    have h0 : overloadFails (env a) = true := by
      have := hov 0 (by omega)
      simpa using this
    obtain ⟨e, henv, he⟩ : ∃ e, env a = some e ∧ isOverloadError e = true := by
      cases henv : env a with
      | none => rw [henv] at h0; simp [overloadFails] at h0
      | some e =>
          refine ⟨e, rfl, ?_⟩
          rw [henv] at h0; simpa [overloadFails] using h0
    by_cases hlt : r + 1 ≤ max_retries
    · rw [retryLoop_step_retry env prompt hist max_retries f r d a e hr henv he hlt]
      rw [ih (r + 1) (d * 2) (a + 1) hlt (by omega) ?_]
      · have h2 : max_retries - r = (max_retries - (r + 1)) + 1 := by omega
        simp only [h2]
        have h1 : max_retries + 1 - (r + 1) + 1 = max_retries + 1 - r := by omega
        simp [backoffs, h1]
        omega
      · intro i hi
        have := hov (i + 1) (by omega)
        have harr : a + (i + 1) = a + 1 + i := by omega
        rw [harr] at this; exact this
    · rw [retryLoop_step_exhaust env prompt hist max_retries f r d a e hr henv he hlt]
      have h1 : max_retries + 1 - r = 1 := by omega
      have h2 : max_retries - r = 0 := by omega
      simp [h1, h2, backoffs]


/-- Attempt count when the first success comes after k overload failures:
the loop makes min (k + 1) (budget) attempts. -/
theorem retryLoop_first_success (env : Nat → Option String) (prompt : String)
    (hist : Option (List ApiTurn)) (max_retries : Nat) :
    ∀ fuel retries retry_delay attempt k,
      retries ≤ max_retries →
      fuel = max_retries + 1 - retries →
      (∀ i, i < k → overloadFails (env (attempt + i)) = true) →
      env (attempt + k) = none →
      (retryLoop env prompt hist max_retries fuel retries retry_delay attempt).attempts =
        min (k + 1) (max_retries + 1 - retries) := by
  intro fuel
  induction fuel with
  | zero => intro r d a k hr hf _ _; omega
  | succ f ih =>
    intro r d a k hr hf hov hk
    cases k with
    | zero =>
        have ha : env a = none := by simpa using hk
        rw [retryLoop_step_success env prompt hist max_retries f r d a hr ha]
        show (1 : Nat) = _
        omega
    | succ j =>
        have h0 : overloadFails (env a) = true := by
          have := hov 0 (by omega)
          simpa using this
        obtain ⟨e, henv, he⟩ : ∃ e, env a = some e ∧ isOverloadError e = true := by
          cases henv : env a with
          | none => rw [henv] at h0; simp [overloadFails] at h0
          | some e =>
              refine ⟨e, rfl, ?_⟩
              rw [henv] at h0; simpa [overloadFails] using h0
        by_cases hlt : r + 1 ≤ max_retries
        · rw [retryLoop_step_retry env prompt hist max_retries f r d a e hr henv he hlt]
          have hrec := ih (r + 1) (d * 2) (a + 1) j hlt (by omega) ?_ ?_
          · simp only [hrec]
            omega
          · intro i hi
            have := hov (i + 1) (by omega)
            have harr : a + (i + 1) = a + 1 + i := by omega
            rw [harr] at this; exact this
          · have harr : a + (j + 1) = a + 1 + j := by omega
            rw [harr] at hk; exact hk
        · rw [retryLoop_step_exhaust env prompt hist max_retries f r d a e hr henv he hlt]
          show (1 : Nat) = _
          omega

/-- With fuel left and the while-condition true, the loop makes at least one
attempt. -/
theorem retryLoop_attempts_pos (env : Nat → Option String) (prompt : String)
    (hist : Option (List ApiTurn)) (max_retries fuel retries retry_delay attempt : Nat)
    (hfuel : 1 ≤ fuel) (hr : retries ≤ max_retries) :
    1 ≤ (retryLoop env prompt hist max_retries fuel retries retry_delay attempt).attempts := by
  cases fuel with
  | zero => omega
  | succ f =>
      cases henv : env attempt with
      | none =>
          rw [retryLoop_step_success env prompt hist max_retries f retries retry_delay attempt hr henv]
      | some e =>
          by_cases he : isOverloadError e = true
          · by_cases hlt : retries + 1 ≤ max_retries
            · rw [retryLoop_step_retry env prompt hist max_retries f retries retry_delay attempt e hr henv he hlt]
              simp
            · rw [retryLoop_step_exhaust env prompt hist max_retries f retries retry_delay attempt e hr henv he hlt]
          · have he2 : isOverloadError e = false := by
              cases hb : isOverloadError e
              · rfl
              · exact absurd hb he
            rw [retryLoop_step_other env prompt hist max_retries f retries retry_delay attempt e hr henv he2]

/-- A successful run submitted exactly the request built from the prompt and
history (the request does not vary across attempts). -/
theorem retryLoop_success_request (env : Nat → Option String) (prompt : String)
    (hist : Option (List ApiTurn)) (max_retries : Nat) :
    ∀ fuel retries retry_delay attempt req i,
      (retryLoop env prompt hist max_retries fuel retries retry_delay attempt).result =
        RetryResult.success req i →
      req = buildRequest prompt hist := by
  intro fuel
  induction fuel with
  | zero => intro r d a req i h; simp [retryLoop] at h
  | succ f ih =>
    intro r d a req i h
    by_cases hr : r ≤ max_retries
    · cases henv : env a with
      | none =>
          rw [retryLoop_step_success env prompt hist max_retries f r d a hr henv] at h
          simp at h
          exact h.1.symm
      | some e =>
          by_cases he : isOverloadError e = true
          · by_cases hlt : r + 1 ≤ max_retries
            · rw [retryLoop_step_retry env prompt hist max_retries f r d a e hr henv he hlt] at h
              exact ih (r + 1) (d * 2) (a + 1) req i h
            · rw [retryLoop_step_exhaust env prompt hist max_retries f r d a e hr henv he hlt] at h
              simp at h
          · have he2 : isOverloadError e = false := by
              cases hb : isOverloadError e
              · rfl
              · exact absurd hb he
            rw [retryLoop_step_other env prompt hist max_retries f r d a e hr henv he2] at h
            simp at h
    · simp [retryLoop, hr] at h


/-- Claim C1: for an overload-failing run of generate_response_with_retry, if
every attempt raises an error matching the overload signature, the function
makes exactly max_retries + 1 total attempts before returning the terminal
failure; and when the first success comes after k overload failures, the
number of retries performed (attempts beyond the first) equals
min k max_retries. -/
theorem claim_C1_retry_attempt_counts (env : Nat → Option String) (prompt : String)
    (hist : Option (List ApiTurn)) (max_retries retry_delay : Nat) :
    ((∀ i, i ≤ max_retries → overloadFails (env i) = true) →
      (generate_response_with_retry env prompt hist max_retries retry_delay).attempts =
          max_retries + 1 ∧
      (generate_response_with_retry env prompt hist max_retries retry_delay).result =
          RetryResult.overloadExhausted) ∧
    (∀ k, (∀ i, i < k → overloadFails (env i) = true) → env k = none →
      (generate_response_with_retry env prompt hist max_retries retry_delay).attempts - 1 =
        min k max_retries) := by
  constructor
  · intro hov
    have h := retryLoop_all_overload env prompt hist max_retries (max_retries + 1) 0 retry_delay 0
      (by omega) (by omega) (fun i hi => by simpa using hov i (by omega))
    simp only [generate_response_with_retry, h]
    refine ⟨by omega, ?_⟩
    simp
  · intro k hov hk
    have h := retryLoop_first_success env prompt hist max_retries (max_retries + 1) 0 retry_delay 0 k
      (by omega) (by omega) (fun i hi => by simpa using hov i hi) (by simpa using hk)
    simp only [generate_response_with_retry, h]
    omega

/-- Witness for C1: with all four attempts overloaded the run makes 4
attempts; with 2 overload failures before success it performs min 2 3
retries. -/
theorem claim_C1_retry_attempt_counts_witness :
    (generate_response_with_retry (fun _ => some "HTTP 503: model overloaded") "p" none 3 2).attempts = 3 + 1 ∧
    (generate_response_with_retry (fun n => if n < 2 then some "503 overloaded" else none) "p" none 3 2).attempts - 1 = min 2 3 := by
  constructor
  · exact ((claim_C1_retry_attempt_counts (fun _ => some "HTTP 503: model overloaded") "p" none 3 2).1
      (fun i _ => by
        show overloadFails (some "HTTP 503: model overloaded") = true
        decide)).1
  · exact (claim_C1_retry_attempt_counts (fun n => if n < 2 then some "503 overloaded" else none) "p" none 3 2).2 2
      (fun i hi => by interval_cases i <;> decide) (by decide)

/-- Claim C2: a failing attempt is retried if and only if the error text
contains the substring 503 and its lowercasing contains the substring
overloaded; a failure not matching both yields a terminal failure after
exactly one attempt, with zero retries (no sleeps), carrying the error
text.  Stated for a run whose first attempt raises e, with at least one
retry allowed by the cap. -/
theorem claim_C2_overload_matching (env : Nat → Option String) (e prompt : String)
    (hist : Option (List ApiTurn)) (max_retries retry_delay : Nat)
    (henv : env 0 = some e) (hmr : 1 ≤ max_retries) :
    (2 ≤ (generate_response_with_retry env prompt hist max_retries retry_delay).attempts ↔
      (containsSub e "503" = true ∧ containsSub (lowerStr e) "overloaded" = true)) ∧
    (¬ (containsSub e "503" = true ∧ containsSub (lowerStr e) "overloaded" = true) →
      generate_response_with_retry env prompt hist max_retries retry_delay =
        ⟨RetryResult.nonOverloadError e, 1, []⟩) := by
  by_cases he : isOverloadError e = true
  · have hsub : containsSub e "503" = true ∧ containsSub (lowerStr e) "overloaded" = true := by
      simpa [isOverloadError, Bool.and_eq_true] using he
    have hstep := retryLoop_step_retry env prompt hist max_retries max_retries 0 retry_delay 0 e
      (by omega) henv he (by omega)
    refine ⟨⟨fun _ => hsub, fun _ => ?_⟩, fun hc => absurd hsub hc⟩
    simp only [generate_response_with_retry, hstep, Nat.zero_add]
    have hpos := retryLoop_attempts_pos env prompt hist max_retries max_retries 1 (retry_delay * 2) 1
      (by omega) (by omega)
    omega
  · have he2 : isOverloadError e = false := by
      cases hb : isOverloadError e
      · rfl
      · exact absurd hb he
    have hnsub : ¬ (containsSub e "503" = true ∧ containsSub (lowerStr e) "overloaded" = true) := by
      intro hc
      exact he (by simpa [isOverloadError, Bool.and_eq_true] using hc)
    have hstep := retryLoop_step_other env prompt hist max_retries max_retries 0 retry_delay 0 e
      (by omega) henv he2
    refine ⟨⟨fun h2 => ?_, fun hc => absurd hc hnsub⟩, fun _ => ?_⟩
    · simp only [generate_response_with_retry, hstep] at h2
      exact absurd h2 (by omega)
    · simp only [generate_response_with_retry]
      exact hstep

/-- Witness for C2: an overload-matching error is retried; the error text
timeout gives a terminal single-attempt failure carrying it. -/
theorem claim_C2_overload_matching_witness :
    (2 ≤ (generate_response_with_retry (fun _ => some "overloaded 503") "p" none 3 2).attempts ↔
      (containsSub "overloaded 503" "503" = true ∧
        containsSub (lowerStr "overloaded 503") "overloaded" = true)) ∧
    generate_response_with_retry (fun _ => some "timeout") "p" none 3 2 =
      ⟨RetryResult.nonOverloadError "timeout", 1, []⟩ := by
  constructor
  · exact (claim_C2_overload_matching (fun _ => some "overloaded 503") "overloaded 503" "p" none 3 2 rfl
      (by omega)).1
  · exact (claim_C2_overload_matching (fun _ => some "timeout") "timeout" "p" none 3 2 rfl
      (by omega)).2 (by decide)

/-- Claim C3: with max_retries = 3 and initial retry_delay = 2, a run in
which every attempt fails with the overload signature sleeps exactly
[2, 4, 8] between successive attempts, each delay double the previous. -/
theorem claim_C3_backoff_sequence (env : Nat → Option String) (prompt : String)
    (hist : Option (List ApiTurn))
    (hov : ∀ i, i ≤ 3 → overloadFails (env i) = true) :
    (generate_response_with_retry env prompt hist 3 2).sleeps = [2, 4, 8] := by
  have h := retryLoop_all_overload env prompt hist 3 (3 + 1) 0 2 0 (by omega) (by omega)
    (fun i hi => by simpa using hov i (by omega))
  simp only [generate_response_with_retry, h]
  rfl

/-- Witness for C3 at a concrete all-overload oracle. -/
theorem claim_C3_backoff_sequence_witness :
    (generate_response_with_retry (fun _ => some "503: overloaded") "p" none 3 2).sleeps = [2, 4, 8] :=
  claim_C3_backoff_sequence (fun _ => some "503: overloaded") "p" none
    (fun i _ => by
      show overloadFails (some "503: overloaded") = true
      decide)


/-- Claim C4, counterexample: the claim states that on a mid-stream failure
the recorded assistant message is the partial concatenation of fragments
received so far plus an error marker.  On this concrete turn the stream
yields the fragment Hello and then raises boom, yet the recorded assistant
message is exactly the error marker text and Hello does not occur in it:
src/app.py line 220 overwrites full_response with the error message,
discarding the partial concatenation. -/
theorem claim_C4_counterexample :
    (processTurn ⟨[], none⟩ "hi" (ApiOutcome.stream [some "Hello"] (some "boom") 1)).messages =
      [⟨"user", "hi"⟩, ⟨"assistant", "Error while streaming response: boom"⟩] ∧
    containsSub "Error while streaming response: boom" "Hello" = false := by
  decide

/-- Claim C4 (amended): when stream consumption fails partway through, the
failure is absorbed rather than re-raised — the turn completes with an
assistant message appended — and that recorded message is exactly the error
marker text built from the exception; the partial concatenation is
discarded from the recorded message. -/
theorem claim_C4_midstream_error (st : AppState) (prompt : String)
    (chunks : List (Option String)) (e : String) (sess : Nat) :
    (processTurn st prompt (ApiOutcome.stream chunks (some e) sess)).messages =
      st.messages ++ [⟨"user", prompt⟩,
        ⟨"assistant", "Error while streaming response: " ++ e⟩] := by
  simp [processTurn, finalResponse]

/-- Claim C5: when an active chat session exists, the history passed to the
completion call is the full prior conversation excluding the just-submitted
user turn, each role remapped (assistant to model, user to user) with order
preserved; and for prior conversation [user hi, assistant hello] with new
prompt I have a fever, the request contains exactly three turns in order
user, model, user. -/
theorem claim_C5_history_remap :
    (∀ (st : AppState) (s : Nat) (p : String), st.chat_session = some s →
        turnCall st p = GenCall.withHist p (st.messages.map remapMsg)) ∧
    requestTurns (turnRequest ⟨[⟨"user", "hi"⟩, ⟨"assistant", "hello"⟩], some 0⟩ "I have a fever") =
      [⟨"user", "hi"⟩, ⟨"model", "hello"⟩, ⟨"user", "I have a fever"⟩] := by
  constructor
  · intro st s p hs
    simp [turnCall, hs, buildHistory]
  · decide

/-- Witness for C5: the general remapping statement applied at the concrete
two-message conversation. -/
theorem claim_C5_history_remap_witness :
    turnCall ⟨[⟨"user", "hi"⟩, ⟨"assistant", "hello"⟩], some 0⟩ "I have a fever" =
      GenCall.withHist "I have a fever"
        ((⟨[⟨"user", "hi"⟩, ⟨"assistant", "hello"⟩], some 0⟩ : AppState).messages.map remapMsg) :=
  claim_C5_history_remap.1 ⟨[⟨"user", "hi"⟩, ⟨"assistant", "hello"⟩], some 0⟩ 0 "I have a fever" rfl

/-- Claim C6: for a run of generate_response_with_retry with no conversation
history (absent or empty), the request submitted to the provider is the
fixed system instruction prepended to the prompt as a single string (the
fresh-request form), not a separate history field. -/
theorem claim_C6_first_turn_prefix_text (env : Nat → Option String) (prompt : String)
    (hist : Option (List ApiTurn)) (max_retries retry_delay : Nat)
    (req : SentRequest) (i : Nat)
    (hh : hist = none ∨ hist = some [])
    (hs : (generate_response_with_retry env prompt hist max_retries retry_delay).result =
      RetryResult.success req i) :
    req = SentRequest.fresh (system_instruction ++ "\n\nUser: " ++ prompt) := by
  have hreq := retryLoop_success_request env prompt hist max_retries (max_retries + 1) 0 retry_delay 0
    req i (by simpa [generate_response_with_retry] using hs)
  rcases hh with h | h <;> subst h <;> simpa [buildRequest] using hreq

/-- Witness for C6: a run with no history succeeding on its first attempt
submitted the system-instruction-prefixed prompt. -/
theorem claim_C6_first_turn_prefix_text_witness :
    (generate_response_with_retry (fun _ => none) "hi" none 3 2).result =
      RetryResult.success (SentRequest.fresh (system_instruction ++ "\n\nUser: " ++ "hi")) 0 ∧
    SentRequest.fresh (system_instruction ++ "\n\nUser: " ++ "hi") =
      SentRequest.fresh (system_instruction ++ "\n\nUser: " ++ "hi") :=
  ⟨rfl, claim_C6_first_turn_prefix_text (fun _ => none) "hi" none 3 2 _ 0 (Or.inl rfl) rfl⟩

/-- Claim C7: if no API key is available from the environment variable, the
session cache, or the interactive input, setup_google_api reports not ready
and shows the warning, and no generation call is ever issued for any user
input. -/
theorem claim_C7_no_key_no_calls (env : KeyEnv) (st : AppState)
    (turns : List (String × ApiOutcome))
    (h1 : env.envVar = none) (h2 : env.sessionCached = none) (h3 : env.userInput = none) :
    (setup_google_api env).ready = false ∧ (setup_google_api env).warned = true ∧
      mainCalls env st turns = [] := by
  have hk : acquiredKey env = none := by
    simp [acquiredKey, h1, h2, h3, truthyStr]
  have hs : setup_google_api env = ⟨false, true⟩ := by
    simp [setup_google_api, hk, truthyStr]
  simp [hs, mainCalls]

/-- Witness for C7 at a fully keyless environment with one pending turn. -/
theorem claim_C7_no_key_no_calls_witness :
    (setup_google_api ⟨none, none, none, true⟩).ready = false ∧
    (setup_google_api ⟨none, none, none, true⟩).warned = true ∧
    mainCalls ⟨none, none, none, true⟩ ⟨[], none⟩ [("I have a fever", ApiOutcome.failure)] = [] :=
  claim_C7_no_key_no_calls ⟨none, none, none, true⟩ ⟨[], none⟩
    [("I have a fever", ApiOutcome.failure)] rfl rfl rfl

/-- Claim C8: every turn appends exactly the user message and then one
assistant message: the message log grows by exactly 2 and the existing
messages are preserved unchanged, in order, as a prefix.  (The claim also
allows growth by 1 for a turn failing before any assistant message is
recorded; in this code every failure path still records an assistant
message, so growth is always exactly 2, satisfying the claimed
disjunction; the log never decreases.) -/
theorem claim_C8_turn_growth (st : AppState) (prompt : String) (outcome : ApiOutcome) :
    (processTurn st prompt outcome).messages =
      st.messages ++ [⟨"user", prompt⟩, ⟨"assistant", finalResponse outcome⟩] ∧
    (processTurn st prompt outcome).messages.length = st.messages.length + 2 := by
  constructor
  · simp [processTurn]
  · simp [processTurn]

/-- Claim C9: when the completion client returns no stream at all, the
assistant message appended for the turn is exactly the fixed apology text,
and processing continues to the next input (the turn function returns the
updated state rather than failing). -/
theorem claim_C9_total_failure_apology (st : AppState) (prompt : String) :
    (processTurn st prompt ApiOutcome.failure).messages =
      st.messages ++ [⟨"user", prompt⟩,
        ⟨"assistant", "I\x27m sorry, I couldn\x27t generate a response. Please try again."⟩] := by
  simp [processTurn, finalResponse]

/-- Claim C10: generate_response forwards to generate_response_with_retry at
its default parameters max_retries = 3 and retry_delay = 2, returning
exactly the same result for every prompt, history and oracle. -/
theorem claim_C10_wrapper_equivalence (env : Nat → Option String) (prompt : String)
    (hist : Option (List ApiTurn)) :
    generate_response env prompt hist =
      generate_response_with_retry env prompt hist 3 2 := rfl

end App
